import Mathlib

/-!
Verification of the comparison-slider gesture-and-animation engine of
`img2coloring` (`GSAPImageCompareSliderDemo` in `src/app/lib/image-store.ts`).

The component is single-threaded and event-driven: pointer events, `input`
events from the underlying range control, window `blur`, and per-frame tween
ticks all run to completion before the next event.  We embed it as a step
function over an explicit state.

Numbers are modelled with `ℚ` (the code uses JS doubles; all the constants and
algebraic facts claimed by the spec are exact over `ℚ`).

GSAP specifics that matter and how they are modelled:
* `gsap.to(proxyRef.current, { ..., overwrite: true, ... })` kills every other
  live tween of the same target (`proxyRef.current`) at creation time, but it
  does not clear the component's refs pointing at those tweens.  A `Tween`
  therefore carries an `alive` flag; a ref slot can hold a dead tween.
* `tween.kill()` stops the tween; `killClickTween` / `killInertiaTween` also
  null the ref, so they are modelled as clearing the slot.
* A tween animates `proxy.p` from its captured start value to its target with
  progress clamped to `[0,1]` and easing `power3.out`, `ease t = 1 - (1-t)^3`;
  at full progress the eased value is exactly the target, then `onComplete`
  nulls the ref.
* The tweens on `handleRef` (press scale feedback) target a different object,
  never touch `proxyRef`, and are not modelled.
-/

namespace Slider

/-- A GSAP tween of `proxyRef.current.p`: captured start value, target,
duration (seconds), elapsed time, and whether the tween is still live in the
GSAP engine (`overwrite: true` can kill it without the ref being cleared). -/
structure Tween where
  start : ℚ
  target : ℚ
  duration : ℚ
  elapsed : ℚ
  alive : Bool
deriving DecidableEq

/-- The component's mutable state: `proxyRef.current.p`, the range element's
`value` (an integer, `0..10000` in normal browser use), the two tween refs
(`clickTweenRef`, `inertiaTweenRef`) and the interaction state `stateRef`. -/
structure SliderState where
  p : ℚ
  rangeValue : ℤ
  clickTween : Option Tween
  inertiaTween : Option Tween
  down : Bool
  moved : Bool
  startX : ℚ
  samples : ℕ
  lastP : ℚ
  lastT : ℚ
  v : ℚ
deriving DecidableEq

/-- `const clamp01 = (v) => Math.max(0, Math.min(1, v))`. -/
def clamp01 (v : ℚ) : ℚ := max 0 (min 1 v)

/-- JS `Math.round` (round half toward positive infinity). -/
def jsRound (q : ℚ) : ℤ := ⌊q + 1 / 2⌋

/-- `readP` of the range-input effect: `clamp01(Number(range.value) / 10000)`. -/
def readPVal (n : ℤ) : ℚ := clamp01 ((n : ℚ) / 10000)

/-- `readP()` applied to the current range value in the state. -/
def readP (s : SliderState) : ℚ := readPVal s.rangeValue

/-- `writeRange`: `range.value = String(Math.round(clamp01(p) * 10000))`,
modelled as the integer written. -/
def writeRange (p : ℚ) : ℤ := jsRound (clamp01 p * 10000)

/-- `gsap.utils.clamp(min, max, value)` = `Math.min(max, Math.max(min, value))`. -/
def gsapClamp (lo hi x : ℚ) : ℚ := min hi (max lo x)

/-- GSAP easing `power3.out`: `ease t = 1 - (1 - t)^3`. -/
def easeP3out (t : ℚ) : ℚ := 1 - (1 - t) ^ 3

/-- `killClickTween`: kill the tween (if any) and null `clickTweenRef`. -/
def killClickTween (s : SliderState) : SliderState := { s with clickTween := none }

/-- `killInertiaTween`: kill the tween (if any) and null `inertiaTweenRef`. -/
def killInertiaTween (s : SliderState) : SliderState := { s with inertiaTween := none }

/-- Effect of `overwrite: true` on a tween ref whose tween gets killed by GSAP
without the component clearing the ref: the slot keeps the tween object but it
is no longer live. -/
def deadify : Option Tween → Option Tween
  | some tw => some { tw with alive := false }
  | none => none

/-- `setImmediate`: `proxyRef.current.p = clamp01(p); render(...)`.  `render`
only writes visual output (see `render` below), so the state effect is the
clamped write to `p`. -/
def setImmediate (s : SliderState) (p : ℚ) : SliderState := { s with p := clamp01 p }

/-- `tweenTo`: clamp the target, `killClickTween()`, then start a 0.22 s
`power3.out` click tween of the proxy with `overwrite: true` (which kills a
live inertia tween of the same proxy target without clearing its ref). -/
def tweenTo (s : SliderState) (pIn : ℚ) : SliderState :=
  let target := clamp01 pIn
  let s1 := killClickTween s
  { s1 with
    clickTween := some { start := s1.p, target := target, duration := 22 / 100,
                         elapsed := 0, alive := true }
    inertiaTween := deadify s1.inertiaTween }

/-- `onPointerDown`: ignore non-primary buttons; otherwise kill both tweens and
start a fresh interaction (origin x, velocity 0, sample counter 0, `lastP`
from the range, `lastT` from the clock).  The handle scale tween it starts
targets `handleRef`, not the proxy, and is not modelled. -/
def onPointerDown (button : ℤ) (clientX now : ℚ) (s : SliderState) : SliderState :=
  if button ≠ 0 then s
  else
    let s1 := killInertiaTween (killClickTween s)
    { s1 with
      down := true, moved := false, samples := 0, startX := clientX,
      lastP := readP s1, lastT := now, v := 0 }

/-- `onPointerMove`: while pressed, classify as a drag once `|clientX - startX|`
exceeds 3 px, killing both tweens at that moment. -/
def onPointerMove (clientX : ℚ) (s : SliderState) : SliderState :=
  if s.down = false then s
  else if s.moved = false ∧ 3 < |clientX - s.startX| then
    killInertiaTween (killClickTween { s with moved := true })
  else s

/-- Inertia duration: `gsap.utils.clamp(0.22, 0.6, 0.28 + Math.abs(v) * 220)`. -/
def inertiaDuration (v : ℚ) : ℚ := gsapClamp (22 / 100) (6 / 10) (28 / 100 + |v| * 220)

/-- `onPointerUp` (also registered for `pointercancel`): clear `down`, `moved`,
`samples`; if the interaction was a drag, snap the proxy to the current range
value, and when `|v| > 0.0006` start an inertia tween toward
`clamp01(p + v * 180)` with velocity-scaled duration (`overwrite: true` kills a
live click tween of the proxy without clearing its ref). -/
def onPointerUp (s : SliderState) : SliderState :=
  let wasDrag := s.moved
  let v := s.v
  let s1 := { s with down := false, moved := false, samples := 0 }
  if wasDrag then
    let s2 := setImmediate s1 (readP s1)
    if 6 / 10000 < |v| then
      let target := clamp01 (s2.p + v * 180)
      let dur := inertiaDuration v
      let s3 := killInertiaTween s2
      { s3 with
        inertiaTween := some { start := s3.p, target := target, duration := dur,
                               elapsed := 0, alive := true }
        clickTween := deadify s3.clickTween }
    else s2
  else s1

/-- First phase of `onInput`, the `if (s.down) { ... }` block: the browser has
just set `range.value` to `value` and fired the event; while pressed, update
the EWMA velocity (`v = v*0.65 + (dp/dt)*0.35`, `dt = max(1, now - lastT)`),
record `lastP`/`lastT`, bump the sample counter, and classify as drag (killing
both tweens) when more than one sample has arrived before the pixel threshold
was crossed. -/
def inputVelocityPhase (value : ℤ) (now : ℚ) (s : SliderState) : SliderState :=
  let s0 := { s with rangeValue := value }
  let p := readP s0
  if s0.down then
    let dt := max 1 (now - s0.lastT)
    let dp := p - s0.lastP
    let instV := dp / dt
    let s1a := { s0 with
      v := s0.v * (65 / 100) + instV * (35 / 100),
      lastP := p, lastT := now, samples := s0.samples + 1 }
    if 1 < s1a.samples ∧ s1a.moved = false then
      killInertiaTween (killClickTween { s1a with moved := true })
    else s1a
  else s0

/-- `onInput`: the velocity/classification phase, then routing of the read
value `p`: a direct `setImmediate` while dragging (`if (s.down && s.moved)`),
a settle `tweenTo` otherwise.  (`readP s0 = readPVal value` since the phase
leaves the just-written range value unchanged.) -/
def onInput (value : ℤ) (now : ℚ) (s : SliderState) : SliderState :=
  if (inputVelocityPhase value now s).down ∧ (inputVelocityPhase value now s).moved then
    setImmediate (inputVelocityPhase value now s) (readPVal value)
  else tweenTo (inputVelocityPhase value now s) (readPVal value)

/-- `onBlur`: unconditionally reset the interaction state (including velocity)
and kill both tweens. -/
def onBlur (s : SliderState) : SliderState :=
  killInertiaTween (killClickTween
    { s with down := false, moved := false, samples := 0, v := 0 })

/-- One animation-frame tick of the click tween, advancing its clock by `dt`
seconds.  Fires only when the ref holds a live tween: GSAP renders
`p = start + (target - start) * ease(progress)` with progress clamped to
`[0,1]`, and on completion `onComplete` nulls the ref. -/
def tickClick (dt : ℚ) (s : SliderState) : SliderState :=
  match s.clickTween with
  | some tw =>
      if tw.alive then
        let e := tw.elapsed + dt
        let newP := tw.start + (tw.target - tw.start) * easeP3out (clamp01 (e / tw.duration))
        { s with p := newP,
                 clickTween := if tw.duration ≤ e then none
                               else some { tw with elapsed := e } }
      else s
  | none => s

/-- One animation-frame tick of the inertia tween.  Its `onUpdate` additionally
mirrors the proxy value into the range control via `writeRange` (a programmatic
`range.value` assignment, which does not fire an `input` event). -/
def tickInertia (dt : ℚ) (s : SliderState) : SliderState :=
  match s.inertiaTween with
  | some tw =>
      if tw.alive then
        let e := tw.elapsed + dt
        let newP := tw.start + (tw.target - tw.start) * easeP3out (clamp01 (e / tw.duration))
        { s with p := newP,
                 rangeValue := writeRange newP,
                 inertiaTween := if tw.duration ≤ e then none
                                 else some { tw with elapsed := e } }
      else s
  | none => s

/-- The events the component reacts to.  `pointercancel` is registered to the
same handler as `pointerup` in the source. -/
inductive Event
  | pointerDown (button : ℤ) (clientX now : ℚ)
  | pointerMove (clientX : ℚ)
  | pointerUp
  | pointerCancel
  | input (value : ℤ) (now : ℚ)
  | blur
  | clickTick (dt : ℚ)
  | inertiaTick (dt : ℚ)
deriving DecidableEq

/-- Dispatch one event to its handler. -/
def step (e : Event) (s : SliderState) : SliderState :=
  match e with
  | .pointerDown button clientX now => onPointerDown button clientX now s
  | .pointerMove clientX => onPointerMove clientX s
  | .pointerUp => onPointerUp s
  | .pointerCancel => onPointerUp s
  | .input value now => onInput value now s
  | .blur => onBlur s
  | .clickTick dt => tickClick dt s
  | .inertiaTick dt => tickInertia dt s

/-- Range element attribute `min={0}`. -/
def rangeMin : ℤ := 0

/-- Range element attribute `max={10000}`. -/
def rangeMax : ℤ := 10000

/-- Range element attribute `defaultValue={5000}`. -/
def rangeDefault : ℤ := 5000

/-- Initial state: `proxyRef` starts at `p = 0.5`, no tween, idle interaction;
the setup effect aligns the range with the proxy via `writeRange(0.5)`. -/
def init : SliderState :=
  { p := 1 / 2, rangeValue := writeRange (1 / 2),
    clickTween := none, inertiaTween := none,
    down := false, moved := false, startX := 0, samples := 0,
    lastP := 1 / 2, lastT := 0, v := 0 }

/-- Run an event sequence from the initial state. -/
def run (evs : List Event) : SliderState := evs.foldl (fun s e => step e s) init

/-- `render`: given container width `w`, handle width `handleW` and a position,
produce the visual output — the right clip inset in px and the handle x
translation — or nothing when the measured width is zero (`if (!w) return`). -/
def render (w handleW p : ℚ) : Option (ℚ × ℚ) :=
  if w = 0 then none
  else
    let pp := clamp01 p
    some (max 0 (w - pp * w), pp * w - handleW / 2)

/-- 1 when the slot holds a live tween, else 0. -/
def tweenLive : Option Tween → ℕ
  | some tw => if tw.alive then 1 else 0
  | none => 0

/-- Number of live tweens of the proxy. -/
def liveTweens (s : SliderState) : ℕ := tweenLive s.clickTween + tweenLive s.inertiaTween

/-- The interaction is in direct-drag-write mode. -/
def dragActive (s : SliderState) : Bool := s.down && s.moved

/-- Number of writers currently driving `p`: the direct drag writer plus the
live tweens. -/
def drivers (s : SliderState) : ℕ :=
  (if dragActive s then 1 else 0) + liveTweens s

/-- A tween slot whose start and target are both in `[0,1]`. -/
def tweenBounded : Option Tween → Prop
  | some tw => 0 ≤ tw.start ∧ tw.start ≤ 1 ∧ 0 ≤ tw.target ∧ tw.target ≤ 1
  | none => True

/-- The inductive invariant of the component: a drag is only in progress while
pressed, at most one driver of `p` is active, `p` is in `[0,1]`, and every
stored tween interpolates between values in `[0,1]`. -/
def Inv (s : SliderState) : Prop :=
  (s.moved = true → s.down = true) ∧ drivers s ≤ 1 ∧
  0 ≤ s.p ∧ s.p ≤ 1 ∧ tweenBounded s.clickTween ∧ tweenBounded s.inertiaTween

theorem clamp01_nonneg (v : ℚ) : 0 ≤ clamp01 v := le_max_left 0 _

theorem clamp01_le_one (v : ℚ) : clamp01 v ≤ 1 :=
  max_le (by norm_num) (min_le_left 1 v)

theorem easeP3out_nonneg {t : ℚ} (h0 : 0 ≤ t) (h1 : t ≤ 1) : 0 ≤ easeP3out t := by
  unfold easeP3out
  nlinarith [sq_nonneg (1 - t), sq_nonneg t]

theorem easeP3out_le_one {t : ℚ} (_h0 : 0 ≤ t) (_h1 : t ≤ 1) : easeP3out t ≤ 1 := by
  unfold easeP3out
  nlinarith [pow_nonneg (by linarith : (0:ℚ) ≤ 1 - t) 3]

theorem interp_nonneg {a b e : ℚ} (ha : 0 ≤ a) (_ha1 : a ≤ 1) (hb : 0 ≤ b)
    (_hb1 : b ≤ 1) (he : 0 ≤ e) (he1 : e ≤ 1) : 0 ≤ a + (b - a) * e := by
  nlinarith [mul_nonneg ha (by linarith : (0:ℚ) ≤ 1 - e), mul_nonneg hb he]

theorem interp_le_one {a b e : ℚ} (_ha : 0 ≤ a) (ha1 : a ≤ 1) (_hb : 0 ≤ b)
    (hb1 : b ≤ 1) (he : 0 ≤ e) (he1 : e ≤ 1) : a + (b - a) * e ≤ 1 := by
  nlinarith [mul_nonneg (by linarith : (0:ℚ) ≤ 1 - a) (by linarith : (0:ℚ) ≤ 1 - e),
    mul_nonneg (by linarith : (0:ℚ) ≤ 1 - b) he]

theorem tickP_nonneg {tw : Tween} (hb : tweenBounded (some tw)) (x : ℚ) :
    0 ≤ tw.start + (tw.target - tw.start) * easeP3out (clamp01 x) := by
  obtain ⟨h1, h2, h3, h4⟩ := hb
  exact interp_nonneg h1 h2 h3 h4
    (easeP3out_nonneg (clamp01_nonneg x) (clamp01_le_one x))
    (easeP3out_le_one (clamp01_nonneg x) (clamp01_le_one x))

theorem tickP_le_one {tw : Tween} (hb : tweenBounded (some tw)) (x : ℚ) :
    tw.start + (tw.target - tw.start) * easeP3out (clamp01 x) ≤ 1 := by
  obtain ⟨h1, h2, h3, h4⟩ := hb
  exact interp_le_one h1 h2 h3 h4
    (easeP3out_nonneg (clamp01_nonneg x) (clamp01_le_one x))
    (easeP3out_le_one (clamp01_nonneg x) (clamp01_le_one x))

theorem tweenBounded_deadify {o : Option Tween} (h : tweenBounded o) :
    tweenBounded (deadify o) := by
  cases o with
  | none => trivial
  | some tw => exact h

theorem tweenLive_deadify (o : Option Tween) : tweenLive (deadify o) = 0 := by
  cases o <;> simp [deadify, tweenLive]

theorem tweenLive_none : tweenLive none = 0 := rfl

theorem tweenLive_some (tw : Tween) : tweenLive (some tw) = if tw.alive then 1 else 0 := rfl

theorem drivers_le_one_of {s : SliderState} (hfl : dragActive s = false)
    (hl : liveTweens s ≤ 1) : drivers s ≤ 1 := by
  simp only [drivers, hfl]
  simpa using hl

theorem drivers_le_one_of_live {s : SliderState} (hl : liveTweens s = 0) :
    drivers s ≤ 1 := by
  simp only [drivers, hl]
  split <;> simp

theorem liveTweens_le_of_inv {s : SliderState} (h : Inv s) : liveTweens s ≤ 1 :=
  le_trans (Nat.le_add_left _ _) h.2.1

theorem inv_onPointerDown (b : ℤ) (x t : ℚ) {s : SliderState} (h : Inv s) :
    Inv (onPointerDown b x t s) := by
  obtain ⟨hmd, hdr, hp0, hp1, hbc, hbi⟩ := h
  unfold onPointerDown
  split
  · exact ⟨hmd, hdr, hp0, hp1, hbc, hbi⟩
  · exact ⟨fun _ => rfl,
      by simp [drivers, dragActive, liveTweens, tweenLive, killClickTween, killInertiaTween],
      hp0, hp1, trivial, trivial⟩

theorem inv_onPointerMove (x : ℚ) {s : SliderState} (h : Inv s) :
    Inv (onPointerMove x s) := by
  obtain ⟨hmd, hdr, hp0, hp1, hbc, hbi⟩ := h
  unfold onPointerMove
  split
  · exact ⟨hmd, hdr, hp0, hp1, hbc, hbi⟩
  · rename_i hdown
    split
    · have hd : s.down = true := by simpa using hdown
      refine ⟨fun _ => ?_, ?_, hp0, hp1, trivial, trivial⟩
      · simpa using hdown
      · simp [drivers, dragActive, liveTweens, tweenLive, killClickTween,
          killInertiaTween, hd]
    · exact ⟨hmd, hdr, hp0, hp1, hbc, hbi⟩

theorem inv_onBlur {s : SliderState} (h : Inv s) : Inv (onBlur s) := by
  obtain ⟨hmd, hdr, hp0, hp1, hbc, hbi⟩ := h
  exact ⟨by simp [onBlur, killClickTween, killInertiaTween],
    by simp [onBlur, drivers, dragActive, liveTweens, tweenLive, killClickTween,
      killInertiaTween],
    hp0, hp1, trivial, trivial⟩

theorem inv_tickClick (dt : ℚ) {s : SliderState} (h : Inv s) : Inv (tickClick dt s) := by
  obtain ⟨hmd, hdr, hp0, hp1, hbc, hbi⟩ := h
  unfold tickClick
  cases hc : s.clickTween with
  | none => exact ⟨hmd, hdr, hp0, hp1, hbc, hbi⟩
  | some tw =>
    have hbc' : tweenBounded (some tw) := hc ▸ hbc
    dsimp only
    by_cases halive : tw.alive = true
    · rw [if_pos halive]
      refine ⟨hmd, ?_, tickP_nonneg hbc' _, tickP_le_one hbc' _, ?_, hbi⟩
      · have hlt : tweenLive s.clickTween = 1 := by rw [hc]; simp [tweenLive, halive]
        have hslot : tweenLive (if tw.duration ≤ tw.elapsed + dt then none
            else some { tw with elapsed := tw.elapsed + dt }) ≤ 1 := by
          split <;> simp [tweenLive, halive]
        simp only [drivers, dragActive, liveTweens] at hdr ⊢
        rw [hlt] at hdr
        omega
      · split
        · trivial
        · exact hbc'
    · rw [if_neg halive]
      exact ⟨hmd, hdr, hp0, hp1, hbc, hbi⟩

theorem inv_tickInertia (dt : ℚ) {s : SliderState} (h : Inv s) : Inv (tickInertia dt s) := by
  obtain ⟨hmd, hdr, hp0, hp1, hbc, hbi⟩ := h
  unfold tickInertia
  cases hc : s.inertiaTween with
  | none => exact ⟨hmd, hdr, hp0, hp1, hbc, hbi⟩
  | some tw =>
    have hbi' : tweenBounded (some tw) := hc ▸ hbi
    dsimp only
    by_cases halive : tw.alive = true
    · rw [if_pos halive]
      refine ⟨hmd, ?_, tickP_nonneg hbi' _, tickP_le_one hbi' _, hbc, ?_⟩
      · have hlt : tweenLive s.inertiaTween = 1 := by rw [hc]; simp [tweenLive, halive]
        have hslot : tweenLive (if tw.duration ≤ tw.elapsed + dt then none
            else some { tw with elapsed := tw.elapsed + dt }) ≤ 1 := by
          split <;> simp [tweenLive, halive]
        simp only [drivers, dragActive, liveTweens] at hdr ⊢
        rw [hlt] at hdr
        omega
      · split
        · trivial
        · exact hbi'
    · rw [if_neg halive]
      exact ⟨hmd, hdr, hp0, hp1, hbc, hbi⟩

theorem inv_onPointerUp {s : SliderState} (h : Inv s) : Inv (onPointerUp s) := by
  obtain ⟨hmd, hdr, hp0, hp1, hbc, hbi⟩ := h
  have hlive : tweenLive s.clickTween + tweenLive s.inertiaTween ≤ 1 := by
    have h2 := le_trans (Nat.le_add_left (liveTweens s) _) hdr
    simpa [liveTweens] using h2
  unfold onPointerUp
  dsimp only
  split
  · rename_i hm
    have hm' : s.moved = true := hm
    have hd' : s.down = true := hmd hm'
    have hfl : dragActive s = true := by simp [dragActive, hd', hm']
    have hl0 : tweenLive s.clickTween = 0 ∧ tweenLive s.inertiaTween = 0 := by
      simp [drivers, liveTweens, hfl] at hdr
      omega
    obtain ⟨hc0, hi0⟩ := hl0
    split
    · refine ⟨fun hh => absurd hh Bool.false_ne_true, ?_, clamp01_nonneg _,
        clamp01_le_one _, tweenBounded_deadify hbc,
        ⟨clamp01_nonneg _, clamp01_le_one _, clamp01_nonneg _, clamp01_le_one _⟩⟩
      exact drivers_le_one_of rfl
        (by simp [liveTweens, tweenLive_deadify, tweenLive_some])
    · refine ⟨fun hh => absurd hh Bool.false_ne_true, ?_, clamp01_nonneg _,
        clamp01_le_one _, hbc, hbi⟩
      exact drivers_le_one_of rfl hlive
  · refine ⟨fun hh => absurd hh Bool.false_ne_true, ?_, hp0, hp1, hbc, hbi⟩
    exact drivers_le_one_of rfl hlive

theorem inputPhase_inv (value : ℤ) (now : ℚ) {s : SliderState} (h : Inv s) :
    Inv (inputVelocityPhase value now s) := by
  obtain ⟨hmd, hdr, hp0, hp1, hbc, hbi⟩ := h
  unfold inputVelocityPhase
  dsimp only
  split
  · rename_i hd
    have hd' : s.down = true := hd
    split
    · refine ⟨fun _ => hd', ?_, hp0, hp1, trivial, trivial⟩
      simp [drivers, dragActive, liveTweens, tweenLive, killClickTween,
        killInertiaTween, hd']
    · exact ⟨fun _ => hd', hdr, hp0, hp1, hbc, hbi⟩
  · exact ⟨hmd, hdr, hp0, hp1, hbc, hbi⟩

theorem inputPhase_dragLive (value : ℤ) (now : ℚ) {s : SliderState} (h : Inv s) :
    (inputVelocityPhase value now s).down = true →
    (inputVelocityPhase value now s).moved = true →
    liveTweens (inputVelocityPhase value now s) = 0 := by
  obtain ⟨hmd, hdr, hp0, hp1, hbc, hbi⟩ := h
  unfold inputVelocityPhase
  dsimp only
  split
  · rename_i hd
    have hd' : s.down = true := hd
    split
    · intro _ _
      simp [liveTweens, tweenLive, killClickTween, killInertiaTween]
    · intro _ hmv
      have hm' : s.moved = true := hmv
      have hfl : dragActive s = true := by simp [dragActive, hd', hm']
      simp [drivers, liveTweens, hfl] at hdr
      show tweenLive s.clickTween + tweenLive s.inertiaTween = 0
      omega
  · rename_i hd
    intro hdn _
    exact absurd hdn hd

theorem inv_onInput (value : ℤ) (now : ℚ) {s : SliderState} (h : Inv s) :
    Inv (onInput value now s) := by
  have hph := inputPhase_inv value now h
  have hdl := inputPhase_dragLive value now h
  obtain ⟨hmd, hdr, hp0, hp1, hbc, hbi⟩ := hph
  unfold onInput
  split
  · rename_i hcond
    obtain ⟨hdn, hmv⟩ := hcond
    have hl0 := hdl hdn hmv
    exact ⟨fun _ => hdn, drivers_le_one_of_live hl0, clamp01_nonneg _,
      clamp01_le_one _, hbc, hbi⟩
  · rename_i hcond
    have hfl2 : ((inputVelocityPhase value now s).down &&
        (inputVelocityPhase value now s).moved) = false := by
      cases hdn : (inputVelocityPhase value now s).down <;>
        cases hmv : (inputVelocityPhase value now s).moved <;> simp_all
    exact ⟨hmd, drivers_le_one_of hfl2
        (by simp [liveTweens, tweenTo, killClickTween, tweenLive_some,
          tweenLive_deadify]),
      hp0, hp1, ⟨hp0, hp1, clamp01_nonneg _, clamp01_le_one _⟩,
      tweenBounded_deadify hbi⟩

theorem inv_step (e : Event) {s : SliderState} (h : Inv s) : Inv (step e s) := by
  cases e with
  | pointerDown b x t => exact inv_onPointerDown b x t h
  | pointerMove x => exact inv_onPointerMove x h
  | pointerUp => exact inv_onPointerUp h
  | pointerCancel => exact inv_onPointerUp h
  | input n t => exact inv_onInput n t h
  | blur => exact inv_onBlur h
  | clickTick dt => exact inv_tickClick dt h
  | inertiaTick dt => exact inv_tickInertia dt h

theorem inv_init : Inv init := by
  refine ⟨by simp [init], ?_, by norm_num [init], by norm_num [init], trivial, trivial⟩
  simp [init, drivers, dragActive, liveTweens, tweenLive]

theorem inv_run (evs : List Event) : Inv (run evs) := by
  suffices h : ∀ s, Inv s → Inv (List.foldl (fun s e => step e s) s evs) from
    h init inv_init
  induction evs with
  | nil => exact fun s hs => hs
  | cons e tl ih => exact fun s hs => ih _ (inv_step e hs)

theorem inputPhase_classify {s : SliderState} (n : ℤ) (t : ℚ) (hd : s.down = true)
    (hm : s.moved = false) (hs : 1 ≤ s.samples) :
    inputVelocityPhase n t s =
      { s with
        rangeValue := n, moved := true, clickTween := none, inertiaTween := none,
        v := s.v * (65 / 100) + ((readPVal n - s.lastP) / max 1 (t - s.lastT)) * (35 / 100),
        lastP := readPVal n, lastT := t, samples := s.samples + 1 } := by
  unfold inputVelocityPhase
  dsimp only
  split
  · split
    · rfl
    · rename_i hns
      exact absurd (show (1 < s.samples + 1 ∧ s.moved = false) from ⟨by omega, hm⟩) hns
  · rename_i hnd
    exact absurd hd hnd

theorem inputPhase_noclassify {s : SliderState} (n : ℤ) (t : ℚ) (hd : s.down = true)
    (hnc : ¬(1 < s.samples + 1 ∧ s.moved = false)) :
    inputVelocityPhase n t s =
      { s with
        rangeValue := n,
        v := s.v * (65 / 100) + ((readPVal n - s.lastP) / max 1 (t - s.lastT)) * (35 / 100),
        lastP := readPVal n, lastT := t, samples := s.samples + 1 } := by
  unfold inputVelocityPhase
  dsimp only
  split
  · rfl
  · rename_i hnd
    exact absurd hd hnd

theorem inputPhase_notDown {s : SliderState} (n : ℤ) (t : ℚ) (hd : s.down = false) :
    inputVelocityPhase n t s = { s with rangeValue := n } := by
  unfold inputVelocityPhase
  dsimp only
  split
  · rename_i hdn
    rw [hd] at hdn
    exact absurd hdn Bool.false_ne_true
  · rfl

theorem onPointerUp_fields (s : SliderState) :
    (onPointerUp s).down = false ∧ (onPointerUp s).moved = false ∧
    (onPointerUp s).samples = 0 ∧ (onPointerUp s).v = s.v := by
  unfold onPointerUp
  dsimp only
  split
  · split
    · exact ⟨rfl, rfl, rfl, rfl⟩
    · exact ⟨rfl, rfl, rfl, rfl⟩
  · exact ⟨rfl, rfl, rfl, rfl⟩

/-- Concrete mid-drag state with a fast smoothed velocity, for instantiating
theorems with hypotheses. -/
def exDragFast : SliderState :=
  { p := 4 / 5, rangeValue := 8000, clickTween := none, inertiaTween := none,
    down := true, moved := true, startX := 0, samples := 2,
    lastP := 4 / 5, lastT := 20, v := 1 / 100 }

/-- The same mid-drag state with a sub-threshold velocity. -/
def exDragSlow : SliderState := { exDragFast with v := 1 / 10000 }

/-- Concrete freshly-pressed state (no samples, not yet classified). -/
def exPress : SliderState :=
  { p := 1 / 2, rangeValue := 5000, clickTween := none, inertiaTween := none,
    down := true, moved := false, startX := 0, samples := 0,
    lastP := 1 / 2, lastT := 0, v := 0 }

/-- Pressed state that has already received one input sample. -/
def exPress1 : SliderState := { exPress with samples := 1 }

/-- Concrete idle state (not pressed, not classified as drag). -/
def exIdle : SliderState := { exPress with down := false }

/-- Concrete state carrying a live inertia tween. -/
def exInertiaState : SliderState :=
  { p := 4 / 5, rangeValue := 8000, clickTween := none,
    inertiaTween := some { start := 4 / 5, target := 1, duration := 3 / 5,
                           elapsed := 0, alive := true },
    down := false, moved := false, startX := 0, samples := 0,
    lastP := 4 / 5, lastT := 20, v := 1 / 100 }

/-- C1: Mutual exclusion of drivers.  Along every event sequence at most one of
direct-drag-write, settle tween, inertia tween is driving `p`; a primary-button
press clears both tween refs (no tween survives a new press); starting a settle
tween leaves no live inertia tween, and the inertia tween started by a
fast-enough drag release leaves no live click tween. -/
theorem C1_mutual_exclusion :
    (∀ evs : List Event, drivers (run evs) ≤ 1) ∧
    (∀ (x t : ℚ) (s : SliderState),
      (step (Event.pointerDown 0 x t) s).clickTween = none ∧
      (step (Event.pointerDown 0 x t) s).inertiaTween = none) ∧
    (∀ (s : SliderState) (q : ℚ), tweenLive (tweenTo s q).inertiaTween = 0) ∧
    (∀ s : SliderState, s.moved = true → 6 / 10000 < |s.v| →
      tweenLive (onPointerUp s).clickTween = 0) := by
  refine ⟨fun evs => (inv_run evs).2.1, fun x t s => ⟨rfl, rfl⟩,
    fun s q => tweenLive_deadify _, fun s hm hv => ?_⟩
  unfold onPointerUp
  dsimp only
  rw [if_pos hm, if_pos hv]
  exact tweenLive_deadify _

/-- C1 witness at concrete inputs. -/
theorem C1_mutual_exclusion_witness :
    drivers (run [Event.pointerDown 0 0 0]) ≤ 1 ∧
    tweenLive (onPointerUp exDragFast).clickTween = 0 :=
  ⟨C1_mutual_exclusion.1 [Event.pointerDown 0 0 0],
   C1_mutual_exclusion.2.2.2 exDragFast rfl (by norm_num [exDragFast, abs_of_pos])⟩

/-- C2: Drag-release inertia rule.  On release of a drag with `|v| > 0.0006`,
an inertia tween is created whose target is `clamp01(p + v·180)` from the
clamped release position and whose duration is `inertiaDuration v`; with
`|v| ≤ 0.0006` or without a drag no inertia tween is created and the release
leaves `p` at the release value; the duration lies in `[0.22, 0.6]` seconds and
is monotone in `|v|`, strictly when unsaturated. -/
theorem C2_inertia_rule :
    (∀ s : SliderState, s.moved = true →
      (6 / 10000 < |s.v| →
        (onPointerUp s).inertiaTween = some
          { start := clamp01 (readP s),
            target := clamp01 (clamp01 (readP s) + s.v * 180),
            duration := inertiaDuration s.v, elapsed := 0, alive := true } ∧
        (onPointerUp s).p = clamp01 (readP s)) ∧
      (|s.v| ≤ 6 / 10000 →
        (onPointerUp s).inertiaTween = s.inertiaTween ∧
        (onPointerUp s).clickTween = s.clickTween ∧
        (onPointerUp s).p = clamp01 (readP s))) ∧
    (∀ s : SliderState, s.moved = false →
      (onPointerUp s).inertiaTween = s.inertiaTween ∧
      (onPointerUp s).clickTween = s.clickTween ∧
      (onPointerUp s).p = s.p) ∧
    (∀ v : ℚ, 22 / 100 ≤ inertiaDuration v ∧ inertiaDuration v ≤ 6 / 10) ∧
    (∀ v₁ v₂ : ℚ, |v₁| ≤ |v₂| → inertiaDuration v₁ ≤ inertiaDuration v₂) ∧
    (∀ v₁ v₂ : ℚ, |v₁| < |v₂| → inertiaDuration v₂ < 6 / 10 →
      inertiaDuration v₁ < inertiaDuration v₂) := by
  refine ⟨fun s hm => ⟨fun hv => ?_, fun hle => ?_⟩, fun s hm => ?_,
    fun v => ⟨?_, ?_⟩, fun v₁ v₂ h => ?_, fun v₁ v₂ h hsat => ?_⟩
  · unfold onPointerUp
    dsimp only
    rw [if_pos hm, if_pos hv]
    exact ⟨rfl, rfl⟩
  · unfold onPointerUp
    dsimp only
    rw [if_pos hm, if_neg (not_lt.mpr hle)]
    exact ⟨rfl, rfl, rfl⟩
  · unfold onPointerUp
    dsimp only
    rw [if_neg (by simp [hm])]
    exact ⟨rfl, rfl, rfl⟩
  · exact le_min (by norm_num) (le_max_left _ _)
  · exact min_le_left _ _
  · have hx : 28 / 100 + |v₁| * 220 ≤ 28 / 100 + |v₂| * 220 := by nlinarith
    exact min_le_min (le_refl _) (max_le_max (le_refl _) hx)
  · unfold inertiaDuration gsapClamp at hsat ⊢
    have hl₁ : (22 / 100 : ℚ) ≤ 28 / 100 + |v₁| * 220 := by nlinarith [abs_nonneg v₁]
    have hl₂ : (22 / 100 : ℚ) ≤ 28 / 100 + |v₂| * 220 := by nlinarith [abs_nonneg v₂]
    rw [max_eq_right hl₁, max_eq_right hl₂]
    rw [max_eq_right hl₂] at hsat
    have hx₂ : 28 / 100 + |v₂| * 220 < 6 / 10 := by
      by_contra hcon
      push_neg at hcon
      rw [min_eq_left hcon] at hsat
      exact lt_irrefl _ hsat
    have hx₁ : 28 / 100 + |v₁| * 220 < 28 / 100 + |v₂| * 220 := by nlinarith
    rw [min_eq_right (le_of_lt hx₂), min_eq_right (le_of_lt (lt_trans hx₁ hx₂))]
    exact hx₁

/-- C2 witness at concrete inputs. -/
theorem C2_inertia_rule_witness :
    (onPointerUp exDragFast).p = clamp01 (readP exDragFast) ∧
    (onPointerUp exDragSlow).inertiaTween = exDragSlow.inertiaTween ∧
    (onPointerUp exIdle).p = exIdle.p ∧
    inertiaDuration 0 ≤ inertiaDuration 1 ∧
    inertiaDuration 0 < inertiaDuration (1 / 1000) :=
  ⟨((C2_inertia_rule.1 exDragFast rfl).1 (by norm_num [exDragFast, abs_of_pos])).2,
   ((C2_inertia_rule.1 exDragSlow rfl).2
     (by norm_num [exDragSlow, exDragFast, abs_of_pos])).1,
   (C2_inertia_rule.2.1 exIdle rfl).2.2,
   C2_inertia_rule.2.2.2.1 0 1 (by norm_num [abs_of_pos]),
   C2_inertia_rule.2.2.2.2 0 (1 / 1000) (by norm_num [abs_of_pos])
     (by norm_num [inertiaDuration, gsapClamp, min_def, max_def, abs_of_pos])⟩

/-- C3: Clamping invariant.  Along every event sequence (with arbitrary,
including out-of-range, range values in the input events) the proxy position
stays in `[0,1]`; every direct write clamps unconditionally, `clamp01` always
lands in `[0,1]`, and every settle tween is created with a clamped target. -/
theorem C3_clamping :
    (∀ evs : List Event, 0 ≤ (run evs).p ∧ (run evs).p ≤ 1) ∧
    (∀ (s : SliderState) (q : ℚ),
      0 ≤ (setImmediate s q).p ∧ (setImmediate s q).p ≤ 1) ∧
    (∀ q : ℚ, 0 ≤ clamp01 q ∧ clamp01 q ≤ 1) ∧
    (∀ (s : SliderState) (q : ℚ), (tweenTo s q).clickTween =
      some { start := s.p, target := clamp01 q, duration := 22 / 100,
             elapsed := 0, alive := true }) :=
  ⟨fun evs => ⟨(inv_run evs).2.2.1, (inv_run evs).2.2.2.1⟩,
   fun _ q => ⟨clamp01_nonneg q, clamp01_le_one q⟩,
   fun q => ⟨clamp01_nonneg q, clamp01_le_one q⟩,
   fun _ _ => rfl⟩

/-- C4: Press cancellation and ordering.  A primary-button pointer-down records
the origin x, resets the sample counter and the velocity, clears both tween
refs before any later event is processed, leaves `p` and the range value
unchanged, and afterwards tween ticks write nothing to `p`. -/
theorem C4_press_cancellation (s : SliderState) (x t : ℚ) :
    (step (Event.pointerDown 0 x t) s).down = true ∧
    (step (Event.pointerDown 0 x t) s).moved = false ∧
    (step (Event.pointerDown 0 x t) s).startX = x ∧
    (step (Event.pointerDown 0 x t) s).samples = 0 ∧
    (step (Event.pointerDown 0 x t) s).v = 0 ∧
    (step (Event.pointerDown 0 x t) s).clickTween = none ∧
    (step (Event.pointerDown 0 x t) s).inertiaTween = none ∧
    (step (Event.pointerDown 0 x t) s).p = s.p ∧
    (step (Event.pointerDown 0 x t) s).rangeValue = s.rangeValue ∧
    (step (Event.pointerDown 0 x t) s).lastP = readP s ∧
    (step (Event.pointerDown 0 x t) s).lastT = t ∧
    (∀ dt : ℚ,
      (step (Event.clickTick dt) (step (Event.pointerDown 0 x t) s)).p =
        (step (Event.pointerDown 0 x t) s).p ∧
      (step (Event.inertiaTick dt) (step (Event.pointerDown 0 x t) s)).p =
        (step (Event.pointerDown 0 x t) s).p) :=
  ⟨rfl, rfl, rfl, rfl, rfl, rfl, rfl, rfl, rfl, rfl, rfl, fun _ => ⟨rfl, rfl⟩⟩

/-- C5: Tap/drag classification.  While pressed and unclassified, a move beyond
3 px classifies the interaction as a drag and kills both tweens, a smaller move
changes nothing; a second input sample also classifies as drag; the input
sample arriving before classification is routed through a settle tween toward
the read value, while input samples once classified write the value directly
with no new tween. -/
theorem C5_classification :
    (∀ (s : SliderState) (x : ℚ), s.down = true → s.moved = false →
      (3 < |x - s.startX| →
        (onPointerMove x s).moved = true ∧ (onPointerMove x s).clickTween = none ∧
        (onPointerMove x s).inertiaTween = none ∧ (onPointerMove x s).p = s.p) ∧
      (|x - s.startX| ≤ 3 → onPointerMove x s = s)) ∧
    (∀ (s : SliderState) (x : ℚ), s.down = false → onPointerMove x s = s) ∧
    (∀ (s : SliderState) (n : ℤ) (t : ℚ), s.down = true → s.moved = false →
      (1 ≤ s.samples →
        (onInput n t s).moved = true ∧ (onInput n t s).p = clamp01 (readPVal n) ∧
        (onInput n t s).clickTween = none ∧ (onInput n t s).inertiaTween = none) ∧
      (s.samples = 0 →
        (onInput n t s).moved = false ∧ (onInput n t s).p = s.p ∧
        (onInput n t s).clickTween = some
          { start := s.p, target := clamp01 (readPVal n), duration := 22 / 100,
            elapsed := 0, alive := true } ∧
        (onInput n t s).inertiaTween = deadify s.inertiaTween)) ∧
    (∀ (s : SliderState) (n : ℤ) (t : ℚ), s.down = true → s.moved = true →
      (onInput n t s).p = clamp01 (readPVal n) ∧
      (onInput n t s).clickTween = s.clickTween ∧
      (onInput n t s).inertiaTween = s.inertiaTween ∧
      (onInput n t s).moved = true) := by
  refine ⟨fun s x hd hm => ⟨fun hx => ?_, fun hx => ?_⟩, fun s x hd => ?_,
    fun s n t hd hm => ⟨fun hs => ?_, fun hs0 => ?_⟩, fun s n t hd hm => ?_⟩
  · unfold onPointerMove
    rw [if_neg (by simp [hd]), if_pos ⟨hm, hx⟩]
    exact ⟨rfl, rfl, rfl, rfl⟩
  · unfold onPointerMove
    rw [if_neg (by simp [hd]), if_neg (fun hc => absurd hc.2 (not_lt.mpr hx))]
  · unfold onPointerMove
    rw [if_pos hd]
  · unfold onInput
    rw [inputPhase_classify n t hd hm hs, if_pos ⟨hd, rfl⟩]
    exact ⟨rfl, rfl, rfl, rfl⟩
  · have hnc : ¬(1 < s.samples + 1 ∧ s.moved = false) := by
      rintro ⟨h1, _⟩
      omega
    unfold onInput
    rw [inputPhase_noclassify n t hd hnc,
      if_neg (fun hc => Bool.false_ne_true (hm ▸ hc.2))]
    exact ⟨hm, rfl, rfl, rfl⟩
  · have hnc : ¬(1 < s.samples + 1 ∧ s.moved = false) := by
      rintro ⟨_, hmf⟩
      rw [hm] at hmf
      exact Bool.noConfusion hmf
    unfold onInput
    rw [inputPhase_noclassify n t hd hnc, if_pos ⟨hd, hm⟩]
    exact ⟨rfl, rfl, rfl, hm⟩

/-- C5 witness at concrete inputs. -/
theorem C5_classification_witness :
    (onPointerMove 10 exPress).moved = true ∧
    onPointerMove 1 exPress = exPress ∧
    onPointerMove 10 exIdle = exIdle ∧
    (onInput 8000 10 exPress1).moved = true ∧
    (onInput 8000 10 exPress).moved = false ∧
    (onInput 8000 30 exDragFast).p = clamp01 (readPVal 8000) :=
  ⟨((C5_classification.1 exPress 10 rfl rfl).1 (by norm_num [exPress])).1,
   (C5_classification.1 exPress 1 rfl rfl).2 (by norm_num [exPress]),
   C5_classification.2.1 exIdle 10 rfl,
   ((C5_classification.2.2.1 exPress1 8000 10 rfl rfl).1 (by norm_num [exPress1])).1,
   ((C5_classification.2.2.1 exPress 8000 10 rfl rfl).2 rfl).1,
   (C5_classification.2.2.2 exDragFast 8000 30 rfl rfl).1⟩

/-- C6: Velocity estimation.  On every input sample while pressed the velocity
estimate becomes `v·0.65 + ((Δp)/Δt)·0.35` with `Δt = max 1 (now - lastT)`
milliseconds, and the last sampled position, timestamp and sample counter are
updated. -/
theorem C6_velocity_estimate (s : SliderState) (n : ℤ) (t : ℚ)
    (hd : s.down = true) :
    (onInput n t s).v =
      s.v * (65 / 100) + ((readPVal n - s.lastP) / max 1 (t - s.lastT)) * (35 / 100) ∧
    (onInput n t s).lastP = readPVal n ∧ (onInput n t s).lastT = t ∧
    (onInput n t s).samples = s.samples + 1 := by
  by_cases hcl : 1 < s.samples + 1 ∧ s.moved = false
  · unfold onInput
    rw [inputPhase_classify n t hd hcl.2 (by omega), if_pos ⟨hd, rfl⟩]
    exact ⟨rfl, rfl, rfl, rfl⟩
  · unfold onInput
    rw [inputPhase_noclassify n t hd hcl]
    by_cases hm : s.moved = true
    · rw [if_pos ⟨hd, hm⟩]
      exact ⟨rfl, rfl, rfl, rfl⟩
    · rw [if_neg (fun hc => hm hc.2)]
      exact ⟨rfl, rfl, rfl, rfl⟩

/-- C6 witness at concrete inputs. -/
theorem C6_velocity_estimate_witness :
    (onInput 8000 10 exPress).samples = exPress.samples + 1 ∧
    (onInput 8000 10 exPress).lastP = readPVal 8000 :=
  ⟨(C6_velocity_estimate exPress 8000 10 rfl).2.2.2,
   (C6_velocity_estimate exPress 8000 10 rfl).2.1⟩

/-- Event sequence for C7: primary press at x = 0, two fast input samples
(classifying the interaction as a drag with a super-threshold velocity), then
a pointer-cancel. -/
def cancelEvs : List Event :=
  [Event.pointerDown 0 0 0, Event.input 9000 10, Event.input 8000 20,
   Event.pointerCancel]

/-- State reached after the press of `cancelEvs`. -/
def c7s1 : SliderState :=
  { p := 1 / 2, rangeValue := 5000, clickTween := none, inertiaTween := none,
    down := true, moved := false, startX := 0, samples := 0,
    lastP := 1 / 2, lastT := 0, v := 0 }

/-- State reached after the first input sample of `cancelEvs`. -/
def c7s2 : SliderState :=
  { c7s1 with
    rangeValue := 9000,
    clickTween := some { start := 1 / 2, target := 9 / 10, duration := 11 / 50,
                         elapsed := 0, alive := true },
    samples := 1, lastP := 9 / 10, lastT := 10, v := 7 / 500 }

/-- State reached after the second input sample of `cancelEvs` (classified as
a drag, both tweens killed, position written directly). -/
def c7s3 : SliderState :=
  { p := 4 / 5, rangeValue := 8000, clickTween := none, inertiaTween := none,
    down := true, moved := true, startX := 0, samples := 2,
    lastP := 4 / 5, lastT := 20, v := 7 / 1250 }

/-- State reached after the pointer-cancel of `cancelEvs`: an inertia tween
was created and the velocity estimate was not cleared. -/
def c7s4 : SliderState :=
  { c7s3 with
    down := false, moved := false, samples := 0,
    inertiaTween := some { start := 4 / 5, target := 1, duration := 3 / 5,
                           elapsed := 0, alive := true } }

theorem c7_run_eq : run cancelEvs = c7s4 := by
  have h1 : step (Event.pointerDown 0 0 0) init = c7s1 := by
    norm_num [step, onPointerDown, killClickTween, killInertiaTween, readP,
      readPVal, clamp01, init, writeRange, jsRound, c7s1, min_def, max_def]
  have h2 : step (Event.input 9000 10) c7s1 = c7s2 := by
    norm_num [step, onInput, inputVelocityPhase, setImmediate, tweenTo,
      killClickTween, killInertiaTween, readP, readPVal, clamp01, deadify,
      c7s1, c7s2, min_def, max_def]
  have h3 : step (Event.input 8000 20) c7s2 = c7s3 := by
    norm_num [step, onInput, inputVelocityPhase, setImmediate, tweenTo,
      killClickTween, killInertiaTween, readP, readPVal, clamp01, deadify,
      c7s1, c7s2, c7s3, min_def, max_def]
  have h4 : step Event.pointerCancel c7s3 = c7s4 := by
    norm_num [step, onPointerUp, setImmediate, killInertiaTween, deadify,
      readP, readPVal, clamp01, inertiaDuration, gsapClamp, c7s3, c7s4,
      min_def, max_def, abs_of_pos]
  show step Event.pointerCancel (step (Event.input 8000 20)
    (step (Event.input 9000 10) (step (Event.pointerDown 0 0 0) init))) = c7s4
  rw [h1, h2, h3, h4]

/-- C7 counterexample: after the concrete drag-then-pointer-cancel sequence
`cancelEvs`, an inertia tween remains (in fact one was started by the cancel)
and the velocity estimate was not cleared, contradicting the claim that
pointer-cancel unconditionally resets the interaction state and cancels every
tween. -/
theorem C7_counterexample :
    (run cancelEvs).inertiaTween ≠ none ∧ (run cancelEvs).v ≠ 0 := by
  rw [c7_run_eq]
  constructor
  · simp [c7s4, c7s3]
  · norm_num [c7s4, c7s3]

/-- C7 (amended): on window blur the interaction state is unconditionally
reset — pressed flag, drag flag, sample counter and velocity all cleared — and
both tweens are cancelled; pointer-cancel, by contrast, is handled by the same
handler as pointer-up: it clears the pressed flag, drag flag and sample
counter but keeps the velocity estimate, and it does not unconditionally
cancel tweens (a fast drag even starts an inertia tween). -/
theorem C7_blur_and_cancel (s : SliderState) :
    (onBlur s).down = false ∧ (onBlur s).moved = false ∧ (onBlur s).samples = 0 ∧
    (onBlur s).v = 0 ∧ (onBlur s).clickTween = none ∧
    (onBlur s).inertiaTween = none ∧
    step Event.pointerCancel s = onPointerUp s ∧
    (step Event.pointerCancel s).down = false ∧
    (step Event.pointerCancel s).moved = false ∧
    (step Event.pointerCancel s).samples = 0 ∧
    (step Event.pointerCancel s).v = s.v :=
  ⟨rfl, rfl, rfl, rfl, rfl, rfl, rfl, (onPointerUp_fields s).1,
   (onPointerUp_fields s).2.1, (onPointerUp_fields s).2.2.1,
   (onPointerUp_fields s).2.2.2⟩

/-- C8: Range-control sync during inertia.  On every live inertia tween tick
the range control's value is rewritten to the encoding of the new position
(`writeRange`), and the tick triggers no input handling: velocity, sample
counter, last sample, interaction flags and the click tween ref are untouched
(in the browser, programmatic `range.value` writes fire no `input` event). -/
theorem C8_inertia_sync (s : SliderState) (tw : Tween) (dt : ℚ)
    (hslot : s.inertiaTween = some tw) (halive : tw.alive = true) :
    (tickInertia dt s).rangeValue = writeRange (tickInertia dt s).p ∧
    (tickInertia dt s).v = s.v ∧ (tickInertia dt s).samples = s.samples ∧
    (tickInertia dt s).lastP = s.lastP ∧ (tickInertia dt s).lastT = s.lastT ∧
    (tickInertia dt s).down = s.down ∧ (tickInertia dt s).moved = s.moved ∧
    (tickInertia dt s).clickTween = s.clickTween := by
  unfold tickInertia
  rw [hslot]
  dsimp only
  rw [if_pos halive]
  exact ⟨rfl, rfl, rfl, rfl, rfl, rfl, rfl, rfl⟩

/-- C8 witness at concrete inputs. -/
theorem C8_inertia_sync_witness :
    (tickInertia 1 exInertiaState).v = exInertiaState.v ∧
    (tickInertia 1 exInertiaState).rangeValue =
      writeRange (tickInertia 1 exInertiaState).p :=
  ⟨(C8_inertia_sync exInertiaState
      { start := 4 / 5, target := 1, duration := 3 / 5, elapsed := 0,
        alive := true } 1 rfl rfl).2.1,
   (C8_inertia_sync exInertiaState
      { start := 4 / 5, target := 1, duration := 3 / 5, elapsed := 0,
        alive := true } 1 rfl rfl).1⟩

/-- C9: Render function.  For positive measured width the visual output is the
right inset `w - clamp01(p)·w` and the handle translation
`clamp01(p)·w - handleW/2` (the defensive `max 0` never binds); when the
measured width is zero, render is skipped and produces nothing.  The function
is pure, so repeated calls at the same position give the same output and touch
no state. -/
theorem C9_render (w h p : ℚ) :
    (0 < w → render w h p = some (w - clamp01 p * w, clamp01 p * w - h / 2)) ∧
    render 0 h p = none := by
  constructor
  · intro hw
    unfold render
    rw [if_neg (ne_of_gt hw)]
    dsimp only
    have hmax : max 0 (w - clamp01 p * w) = w - clamp01 p * w :=
      max_eq_right (by nlinarith [clamp01_le_one p, clamp01_nonneg p])
    rw [hmax]
  · unfold render
    rw [if_pos rfl]

/-- C9 witness at concrete inputs. -/
theorem C9_render_witness :
    (0 : ℚ) < 1 ∧
    render 1 0 (1 / 2) = some (1 - clamp01 (1 / 2) * 1, clamp01 (1 / 2) * 1 - 0 / 2) :=
  ⟨by norm_num, (C9_render 1 0 (1 / 2)).1 (by norm_num)⟩

/-- C10: Implicit initial state.  Before any interaction the proxy position is
exactly 0.5, the range control is the `0..10000` integer scale with default
5000 (the encoding of 0.5, and what the setup effect writes), and positions
read from the control are quantized by `n / 10000` before clamping. -/
theorem C10_initial_state :
    init.p = 1 / 2 ∧ init.rangeValue = 5000 ∧ rangeDefault = 5000 ∧
    rangeMin = 0 ∧ rangeMax = 10000 ∧ writeRange (1 / 2) = rangeDefault ∧
    readP init = 1 / 2 ∧ (∀ n : ℤ, readPVal n = clamp01 ((n : ℚ) / 10000)) ∧
    init.clickTween = none ∧ init.inertiaTween = none ∧ init.down = false := by
  refine ⟨rfl, ?_, rfl, rfl, rfl, ?_, ?_, fun n => rfl, rfl, rfl, rfl⟩
  · norm_num [init, writeRange, jsRound, clamp01, min_def, max_def]
  · norm_num [writeRange, jsRound, clamp01, min_def, max_def, rangeDefault]
  · norm_num [readP, readPVal, init, writeRange, jsRound, clamp01, min_def,
      max_def]

end Slider
